import Mathlib

/-!
Shallow embedding of `src/backend/main.py`, the single source file of the
joke-generator HTTP service.  Python strings are modelled as `List Char`
(one entry per code point, matching Python `len` and slicing), the global
`model_state` dict as a `ServiceState` record, and the two external effects
(artifact fetching in `load_model`, tokenize/generate/decode in
`generate_joke`) as explicit oracle inputs, so every handler is a pure
function from the old state and the oracle to the new state and an
`Except HTTPException response`.
-/

/-- Python strings, one list entry per code point (`len`, slicing and
concatenation agree with Python). -/
abbrev Str := List Char

/-- `MODEL_NAME = "KingNish/Qwen2.5-0.5b-Test-ft"` (main.py line 31). -/
def MODEL_NAME : Str := "KingNish/Qwen2.5-0.5b-Test-ft".toList

/-- The global `model_state` dict (main.py lines 24-28): model handle,
tokenizer handle (both `None` when absent) and the `model_loaded` flag.
The handle types are opaque parameters. -/
structure ServiceState (Model Tok : Type) where
  model : Option Model
  tokenizer : Option Tok
  model_loaded : Bool
deriving Repr, DecidableEq

/-- The state at process start: `{"model": None, "tokenizer": None,
"model_loaded": False}`. -/
def initState (Model Tok : Type) : ServiceState Model Tok :=
  { model := none, tokenizer := none, model_loaded := false }

/-- `fastapi.HTTPException(status_code=..., detail=...)`. -/
structure HTTPException where
  status_code : Nat
  detail : Str
deriving Repr, DecidableEq

/-- `class GenerateJokeRequest(BaseModel)` (main.py lines 33-36):
`topic: str = ""`, `max_length: int = 100`, `temperature: float = 0.8`.
Python ints are unbounded, hence `Int`; the float is carried opaquely. -/
structure GenerateJokeRequest where
  topic : Str := []
  max_length : Int := 100
  temperature : Float := 0.8

/-- `class JokeResponse(BaseModel)` (main.py lines 38-40). -/
structure JokeResponse where
  joke : Str
  topic : Str
deriving Repr, DecidableEq

/-- The JSON body returned by `read_root` (main.py lines 44-48). -/
structure RootResponse where
  message : Str
  model_loaded : Bool
  model_name : Str
deriving Repr, DecidableEq

/-- The JSON body returned by `load_model` on its non-error branches.  The
already-loaded branch (line 54) returns only `message` and `model_name`;
the fresh-load branch (lines 80-84) also returns `device`.  The optional
key is modelled as `Option Str`, `none` meaning the key is absent. -/
structure LoadResponse where
  message : Str
  model_name : Str
  device : Option Str
deriving Repr, DecidableEq

/-- The external world consulted by `load_model`: the two artifact fetches
(`AutoTokenizer.from_pretrained`, line 61, and
`AutoModelForCausalLM.from_pretrained`, lines 67-72), each either a handle
or a raised exception carried as `str(e)`; the pad-token fixup on the
fetched tokenizer object (lines 64-65), opaque here; and
`torch.cuda.is_available()`. -/
structure LoadEnv (Model Tok : Type) where
  fetchTokenizer : Except Str Tok
  fetchModel : Except Str Model
  fixPadToken : Tok → Tok
  cudaAvailable : Bool

/-- `GET /` handler `read_root` (main.py lines 42-48).  It only reads the
state; the unchanged state is returned alongside the body to make that
explicit. -/
def read_root {Model Tok : Type} (st : ServiceState Model Tok) :
    ServiceState Model Tok × RootResponse :=
  (st, { message := "Joke Generator API".toList
         model_loaded := st.model_loaded
         model_name := MODEL_NAME })

/-- `POST /load-model` handler `load_model` (main.py lines 50-89).
Branches, in source order: already-loaded early return (lines 53-54);
tokenizer fetch, pad-token fixup, model fetch; on success store both
handles and set the flag (lines 74-76) and return the success body
(lines 80-84); any exception in the try block becomes
`HTTPException(500, "Failed to load model: " + str(e))` (line 89). -/
def load_model {Model Tok : Type} (st : ServiceState Model Tok)
    (env : LoadEnv Model Tok) :
    ServiceState Model Tok × Except HTTPException LoadResponse :=
  if st.model_loaded then
    (st, .ok { message := "Model already loaded".toList
               model_name := MODEL_NAME
               device := none })
  else
    match env.fetchTokenizer with
    | .error e => (st, .error { status_code := 500
                                detail := "Failed to load model: ".toList ++ e })
    | .ok tok0 =>
      let tokenizer := env.fixPadToken tok0
      match env.fetchModel with
      | .error e => (st, .error { status_code := 500
                                  detail := "Failed to load model: ".toList ++ e })
      | .ok model =>
        ({ model := some model, tokenizer := some tokenizer, model_loaded := true },
         .ok { message := "Model loaded successfully".toList
               model_name := MODEL_NAME
               device := some (if env.cudaAvailable then "cuda".toList
                               else "cpu".toList) })

/-- Prompt construction (main.py lines 102-105): `if request.topic:` uses
Python truthiness, so the about-prompt is taken exactly when the topic is
non-empty. -/
def prompt_for (topic : Str) : Str :=
  if topic ≠ [] then
    "Here's a funny joke about ".toList ++ topic ++ ":\n".toList
  else
    "Here's a funny joke:\n".toList

/-- The keyword arguments of the `model.generate(...)` call
(main.py lines 116-126), together with the tokenized prompt they are
applied to.  `pad_token_id=tokenizer.eos_token_id` is part of the call but
lives inside the opaque tokenizer handle and is not represented. -/
structure GenParams where
  prompt : Str
  max_new_tokens : Int
  min_new_tokens : Int
  temperature : Float
  do_sample : Bool
  top_p : Float
  top_k : Int
  repetition_penalty : Float

/-- The parameters `generate_joke` passes to generation for a given
request (main.py lines 102-126): the topic-dependent prompt,
`max_new_tokens=min(request.max_length, 50)`, `min_new_tokens=10`,
`temperature=request.temperature`, `do_sample=True`, `top_p=0.9`,
`top_k=50`, `repetition_penalty=1.2`. -/
def gen_params (req : GenerateJokeRequest) : GenParams :=
  { prompt := prompt_for req.topic
    max_new_tokens := min req.max_length 50
    min_new_tokens := 10
    temperature := req.temperature
    do_sample := true
    top_p := 0.9
    top_k := 50
    repetition_penalty := 1.2 }

/-- Fuel-indexed worker for Python `s.replace(pat, "")`: scan left to
right, and at each position where `pat` (non-empty) is a leading segment,
delete it and continue after it; one unit of fuel per character consumed
keeps the recursion structural. -/
def pyRemoveAux (pat : Str) : Nat → Str → Str
  | _, [] => []
  | 0, s => s
  | fuel + 1, c :: rest =>
    if pat ≠ [] ∧ pat.isPrefixOf (c :: rest) then
      pyRemoveAux pat fuel (rest.drop (pat.length - 1))
    else
      c :: pyRemoveAux pat fuel rest

/-- Python `s.replace(pat, "")` as used on main.py line 132: remove every
(non-overlapping, leftmost-first) occurrence of `pat` from `s`. -/
def pyRemove (pat s : Str) : Str :=
  pyRemoveAux pat s.length s

/-- Python `s.strip()` (main.py line 132): drop leading and trailing
whitespace. -/
def pyStrip (s : Str) : Str :=
  ((s.dropWhile Char.isWhitespace).reverse.dropWhile Char.isWhitespace).reverse

/-- The hardcoded fallback joke (main.py lines 140 and 143). -/
def fallbackJoke : Str :=
  "Why don't scientists trust atoms? Because they make up everything!".toList

/-- Post-processing of the decoded output (main.py line 132): remove the
prompt substring everywhere, then strip surrounding whitespace. -/
def postProcess (prompt generated_text : Str) : Str :=
  pyStrip (pyRemove prompt generated_text)

/-- The truncation step (main.py lines 135-136): if the text exceeds 500
characters, keep the first 500 and append "...". -/
def truncate_joke (joke : Str) : Str :=
  if joke.length > 500 then joke.take 500 ++ "...".toList else joke

/-- The truncation step followed by the fallback step (main.py lines
135-140): after truncating, substitute the fixed fallback joke when the
result is shorter than 10 characters. -/
def clean_joke (joke : Str) : Str :=
  if (truncate_joke joke).length < 10 then fallbackJoke else truncate_joke joke

/-- `POST /generate-joke` handler `generate_joke` (main.py lines 91-148).
The oracle `runModel` stands for tokenization, device placement,
`model.generate` and `tokenizer.decode` together (lines 108-129): given
the generation parameters it yields the decoded `generated_text`, or a
raised exception carried as `str(e)`.  Branches, in source order: the
precondition gate (lines 94-95); prompt construction and generation;
prompt removal and strip (line 132); truncation at 500 plus "..."
(lines 135-136); fallback below 10 characters (lines 139-140); the
response with the line-143 emptiness guard and the topic echo (line 144);
any exception in the try block becomes
`HTTPException(500, "Failed to generate joke: " + str(e))` (line 148). -/
def generate_joke {Model Tok : Type} (st : ServiceState Model Tok)
    (req : GenerateJokeRequest) (runModel : GenParams → Except Str Str) :
    ServiceState Model Tok × Except HTTPException JokeResponse :=
  if st.model_loaded = false then
    (st, .error { status_code := 400
                  detail := "Model not loaded. Call /load-model first.".toList })
  else
    match runModel (gen_params req) with
    | .error e => (st, .error { status_code := 500
                                detail := "Failed to generate joke: ".toList ++ e })
    | .ok generated_text =>
      let joke := clean_joke (postProcess (prompt_for req.topic) generated_text)
      (st, .ok { joke := if joke ≠ [] then joke else fallbackJoke
                 topic := if req.topic ≠ [] then req.topic else "general".toList })

/-- The `model_state` invariant stated by the spec: the `model_loaded` flag
is set exactly when both the model handle and the tokenizer handle are
present. -/
def stateInv {Model Tok : Type} (st : ServiceState Model Tok) : Prop :=
  st.model_loaded = true ↔ (st.model.isSome = true ∧ st.tokenizer.isSome = true)

/-! Concrete fixtures over trivial handle types, used by the witness and
counterexample theorems. -/

/-- A state in which the model has been loaded. -/
def stLoaded : ServiceState Unit Unit :=
  { model := some (), tokenizer := some (), model_loaded := true }

/-- A load environment in which both artifact fetches succeed. -/
def envOk : LoadEnv Unit Unit :=
  { fetchTokenizer := .ok (), fetchModel := .ok (), fixPadToken := id
    cudaAvailable := true }

/-- A load environment in which the tokenizer fetch raises. -/
def envFail : LoadEnv Unit Unit :=
  { fetchTokenizer := .error "connection refused".toList, fetchModel := .ok ()
    fixPadToken := id, cudaAvailable := false }

/-- A request fixture: `{"topic": "cats"}` with the field defaults. -/
def reqCats : GenerateJokeRequest :=
  { topic := "cats".toList, max_length := 100, temperature := 0.8 }

/-! Helper lemmas shared by the claim theorems. -/

lemma fallbackJoke_length : fallbackJoke.length = 66 := by decide

lemma truncate_joke_of_long (t : Str) (h : 500 < t.length) :
    truncate_joke t = t.take 500 ++ "...".toList := by
  simp [truncate_joke, h]

lemma truncate_joke_of_short (t : Str) (h : ¬ 500 < t.length) :
    truncate_joke t = t := by
  simp [truncate_joke, h]

lemma truncate_joke_length_of_long (t : Str) (h : 500 < t.length) :
    (truncate_joke t).length = 503 := by
  rw [truncate_joke_of_long t h, List.length_append, List.length_take]
  have hm : min 500 t.length = 500 := by omega
  rw [hm]
  decide

lemma clean_joke_of_long (t : Str) (h : 500 < t.length) :
    clean_joke t = t.take 500 ++ "...".toList := by
  have h503 := truncate_joke_length_of_long t h
  rw [clean_joke, if_neg (by omega), truncate_joke_of_long t h]

lemma clean_joke_of_degenerate (t : Str) (h : t.length < 10) :
    clean_joke t = fallbackJoke := by
  have hs : ¬ 500 < t.length := by omega
  rw [clean_joke, truncate_joke_of_short t hs, if_pos h]

lemma clean_joke_length (t : Str) :
    10 ≤ (clean_joke t).length ∧
    ((clean_joke t).length ≤ 500 ∨ (clean_joke t).length = 503) := by
  by_cases h5 : 500 < t.length
  · have h503 := truncate_joke_length_of_long t h5
    rw [clean_joke, if_neg (by omega)]
    omega
  · rw [clean_joke, truncate_joke_of_short t h5]
    by_cases h10 : t.length < 10
    · rw [if_pos h10, fallbackJoke_length]
      omega
    · rw [if_neg h10]
      omega

lemma clean_joke_ne_nil (t : Str) : clean_joke t ≠ [] := by
  have h := (clean_joke_length t).1
  intro he
  rw [he] at h
  simp at h

lemma generate_joke_ok {Model Tok : Type} (st : ServiceState Model Tok)
    (req : GenerateJokeRequest) (f : GenParams → Except Str Str) (g : Str)
    (h : st.model_loaded = true) (hg : f (gen_params req) = .ok g) :
    generate_joke st req f =
      (st, .ok { joke := clean_joke (postProcess (prompt_for req.topic) g)
                 topic := if req.topic ≠ [] then req.topic
                          else "general".toList }) := by
  have hne := clean_joke_ne_nil (postProcess (prompt_for req.topic) g)
  simp [generate_joke, h, hg, hne]

lemma generate_joke_fst {Model Tok : Type} (st : ServiceState Model Tok)
    (req : GenerateJokeRequest) (f : GenParams → Except Str Str) :
    (generate_joke st req f).1 = st := by
  by_cases h : st.model_loaded = false
  · simp [generate_joke, h]
  · rcases hf : f (gen_params req) with e | g <;> simp [generate_joke, h, hf]

/-! The claim theorems. -/

/-- C1: whenever `ServiceState.loaded` is false, `generateJoke` returns the
400 precondition error with detail "Model not loaded. Call /load-model
first.", the state is unchanged, and the result is the same for every
request (any topic, maxLength, temperature) and for every generation
oracle, so no generation is attempted. -/
theorem generate_joke_precondition {Model Tok : Type}
    (st : ServiceState Model Tok) (req : GenerateJokeRequest)
    (runModel : GenParams → Except Str Str) (h : st.model_loaded = false) :
    generate_joke st req runModel =
      (st, .error { status_code := 400
                    detail := "Model not loaded. Call /load-model first.".toList }) := by
  simp [generate_joke, h]

/-- Witness for C1 at a concrete unloaded state and request. -/
theorem generate_joke_precondition_witness :
    generate_joke (initState Unit Unit)
        { topic := "cats".toList, max_length := 7, temperature := 1.5 }
        (fun _ => .ok "anything".toList) =
      ((initState Unit Unit),
       .error { status_code := 400
                detail := "Model not loaded. Call /load-model first.".toList }) :=
  generate_joke_precondition _ _ _ rfl

/-- C2: whenever `ServiceState.loaded` is already true, `loadModel` returns
the "already loaded" response, touches neither fetch (the result is the
same for every environment), raises no error, and leaves the state exactly
unchanged; in particular a second call right after it is the same no-op. -/
theorem load_model_idempotent {Model Tok : Type} (st : ServiceState Model Tok)
    (env env2 : LoadEnv Model Tok) (h : st.model_loaded = true) :
    load_model st env =
      (st, .ok { message := "Model already loaded".toList
                 model_name := MODEL_NAME, device := none }) ∧
    load_model (load_model st env).1 env2 =
      (st, .ok { message := "Model already loaded".toList
                 model_name := MODEL_NAME, device := none }) := by
  constructor <;> simp [load_model, h]

/-- Witness for C2 at a concrete loaded state. -/
theorem load_model_idempotent_witness :
    load_model stLoaded envOk =
      (stLoaded, .ok { message := "Model already loaded".toList
                       model_name := MODEL_NAME, device := none }) ∧
    load_model (load_model stLoaded envOk).1 envFail =
      (stLoaded, .ok { message := "Model already loaded".toList
                       model_name := MODEL_NAME, device := none }) :=
  load_model_idempotent stLoaded envOk envFail rfl

/-- C3: from an unloaded state, if the tokenizer fetch or the model fetch
raises, `loadModel` leaves every field of the state unchanged, surfaces an
HTTP 500 error whose detail carries the failure description, and a later
call from the same state with working fetches still loads the model. -/
theorem load_model_atomic_on_failure {Model Tok : Type}
    (st : ServiceState Model Tok) (env : LoadEnv Model Tok)
    (h : st.model_loaded = false)
    (hfail : (∃ e, env.fetchTokenizer = .error e) ∨
             (∃ e, env.fetchModel = .error e)) :
    (load_model st env).1 = st ∧
    (∃ e, (load_model st env).2 =
       .error { status_code := 500
                detail := "Failed to load model: ".toList ++ e }) ∧
    (∀ env2 : LoadEnv Model Tok,
       (∃ t, env2.fetchTokenizer = .ok t) →
       (∃ m, env2.fetchModel = .ok m) →
       (load_model st env2).1.model_loaded = true ∧
       ∃ r, (load_model st env2).2 = .ok r) := by
  have hbr : (load_model st env).1 = st ∧
      ∃ e, (load_model st env).2 =
        .error { status_code := 500
                 detail := "Failed to load model: ".toList ++ e } := by
    rcases htok : env.fetchTokenizer with e | t
    · exact ⟨by simp [load_model, h, htok], e, by simp [load_model, h, htok]⟩
    · rcases hmod : env.fetchModel with e | m
      · exact ⟨by simp [load_model, h, htok, hmod], e,
               by simp [load_model, h, htok, hmod]⟩
      · exfalso
        rcases hfail with ⟨e, he⟩ | ⟨e, he⟩
        · rw [htok] at he
          exact Except.noConfusion he
        · rw [hmod] at he
          exact Except.noConfusion he
  refine ⟨hbr.1, hbr.2, ?_⟩
  rintro env2 ⟨t, ht⟩ ⟨m, hm⟩
  constructor
  · simp [load_model, h, ht, hm]
  · refine ⟨{ message := "Model loaded successfully".toList
              model_name := MODEL_NAME
              device := some (if env2.cudaAvailable then "cuda".toList
                              else "cpu".toList) }, ?_⟩
    simp [load_model, h, ht, hm]

/-- Witness for C3: a concrete failing fetch from the initial state. -/
theorem load_model_atomic_on_failure_witness :
    (load_model (initState Unit Unit) envFail).1 = initState Unit Unit ∧
    (∃ e, (load_model (initState Unit Unit) envFail).2 =
       .error { status_code := 500
                detail := "Failed to load model: ".toList ++ e }) :=
  ⟨(load_model_atomic_on_failure _ _ rfl (Or.inl ⟨_, rfl⟩)).1,
   (load_model_atomic_on_failure _ _ rfl (Or.inl ⟨_, rfl⟩)).2.1⟩

/-- C4: the new-token budget `generate_joke` hands to generation is
`min(request.max_length, 50)`: exactly 50 when `max_length` is at least 50
and `max_length` itself when it is below 50; moreover `generate_joke`
consults the generation oracle only at these parameters. -/
theorem gen_params_token_budget (req : GenerateJokeRequest) :
    (gen_params req).max_new_tokens = min req.max_length 50 ∧
    (50 ≤ req.max_length → (gen_params req).max_new_tokens = 50) ∧
    (10 ≤ req.max_length → req.max_length < 50 →
       (gen_params req).max_new_tokens = req.max_length) ∧
    (∀ (Model Tok : Type) (st : ServiceState Model Tok)
       (f g : GenParams → Except Str Str),
       f (gen_params req) = g (gen_params req) →
       generate_joke st req f = generate_joke st req g) := by
  refine ⟨rfl, ?_, ?_, ?_⟩
  · intro h
    simp only [gen_params]
    omega
  · intro h1 h2
    simp only [gen_params]
    omega
  · intro Model Tok st f g hfg
    unfold generate_joke
    rw [hfg]

/-- Witness for C4 at the default request length 100. -/
theorem gen_params_token_budget_witness :
    (gen_params reqCats).max_new_tokens = 50 :=
  (gen_params_token_budget reqCats).2.1 (by decide)

/-- C8: the invariant "`model_loaded` is true iff both the model handle and
the tokenizer handle are present" holds in the initial state and is
preserved by `load_model` (both branches, failure included),
`generate_joke`, and the root status read. -/
theorem stateInv_preserved :
    (∀ (Model Tok : Type), stateInv (initState Model Tok)) ∧
    (∀ (Model Tok : Type) (st : ServiceState Model Tok)
       (env : LoadEnv Model Tok),
       stateInv st → stateInv (load_model st env).1) ∧
    (∀ (Model Tok : Type) (st : ServiceState Model Tok)
       (req : GenerateJokeRequest) (f : GenParams → Except Str Str),
       stateInv st → stateInv (generate_joke st req f).1) ∧
    (∀ (Model Tok : Type) (st : ServiceState Model Tok),
       stateInv st → stateInv (read_root st).1) := by
  refine ⟨?_, ?_, ?_, ?_⟩
  · intro Model Tok
    simp [stateInv, initState]
  · intro Model Tok st env hinv
    by_cases h : st.model_loaded
    · simpa [load_model, h] using hinv
    · rcases htok : env.fetchTokenizer with e | t
      · simpa [load_model, h, htok] using hinv
      · rcases hmod : env.fetchModel with e | m
        · simpa [load_model, h, htok, hmod] using hinv
        · simp [load_model, h, htok, hmod, stateInv]
  · intro Model Tok st req f hinv
    rw [generate_joke_fst]
    exact hinv
  · intro Model Tok st hinv
    exact hinv

/-- Witness for C8: the invariant after a concrete successful load. -/
theorem stateInv_preserved_witness :
    stateInv ((load_model (initState Unit Unit) envOk).1) :=
  stateInv_preserved.2.1 Unit Unit (initState Unit Unit) envOk
    (by simp [stateInv, initState])

/-- C9 is refuted: at a concrete already-loaded state the non-error return
of `load_model` carries no `device` key (modelled as `device = none`), so
the claimed uniform contract {message, modelName, device} fails on the
already-loaded branch. -/
theorem load_model_contract_cex :
    ¬ (∀ r : LoadResponse, (load_model stLoaded envOk).2 = .ok r →
         r.device.isSome = true) := by
  intro hcl
  have h := hcl { message := "Model already loaded".toList
                  model_name := MODEL_NAME, device := none } rfl
  simp at h

/-- C9 (amended): every non-error return of `load_model` carries `message`
and `model_name` (the latter always the configured model id); the `device`
key is present exactly on the fresh-load branch, where it is "cuda" when an
accelerator is available and "cpu" otherwise, while the already-loaded
branch returns only message and model name. -/
theorem load_model_return_contract {Model Tok : Type}
    (st : ServiceState Model Tok) (env : LoadEnv Model Tok)
    (r : LoadResponse) (hr : (load_model st env).2 = .ok r) :
    r.model_name = MODEL_NAME ∧
    (st.model_loaded = true →
       r.message = "Model already loaded".toList ∧ r.device = none) ∧
    (st.model_loaded = false →
       r.message = "Model loaded successfully".toList ∧
       r.device = some (if env.cudaAvailable then "cuda".toList
                        else "cpu".toList)) := by
  by_cases h : st.model_loaded
  · have heq : (load_model st env).2 =
        .ok { message := "Model already loaded".toList
              model_name := MODEL_NAME, device := none } := by
      simp [load_model, h]
    rw [heq] at hr
    injection hr with hr2
    subst hr2
    refine ⟨rfl, fun _ => ⟨rfl, rfl⟩, fun hf => ?_⟩
    simp [h] at hf
  · rcases htok : env.fetchTokenizer with e | t
    · simp [load_model, h, htok] at hr
    · rcases hmod : env.fetchModel with e | m
      · simp [load_model, h, htok, hmod] at hr
      · have heq : (load_model st env).2 =
            .ok { message := "Model loaded successfully".toList
                  model_name := MODEL_NAME
                  device := some (if env.cudaAvailable then "cuda".toList
                                  else "cpu".toList) } := by
          simp [load_model, h, htok, hmod]
        rw [heq] at hr
        injection hr with hr2
        subst hr2
        exact ⟨rfl, fun ht => absurd ht h, fun _ => ⟨rfl, rfl⟩⟩

/-- Witness for C9 (amended) on the already-loaded branch. -/
theorem load_model_return_contract_witness :
    (LoadResponse.mk "Model already loaded".toList MODEL_NAME none).model_name
        = MODEL_NAME ∧
    (stLoaded.model_loaded = true →
       (LoadResponse.mk "Model already loaded".toList MODEL_NAME none).message
           = "Model already loaded".toList ∧
       (LoadResponse.mk "Model already loaded".toList MODEL_NAME none).device
           = none) ∧
    (stLoaded.model_loaded = false →
       (LoadResponse.mk "Model already loaded".toList MODEL_NAME none).message
           = "Model loaded successfully".toList ∧
       (LoadResponse.mk "Model already loaded".toList MODEL_NAME none).device
           = some (if envOk.cudaAvailable then "cuda".toList
                   else "cpu".toList)) :=
  load_model_return_contract stLoaded envOk _ rfl

/-- C5: on every successful `generate_joke` call, whatever the decoded
model output, the returned joke has length at most 503; and whenever the
post-processed text (prompt removed, whitespace stripped) exceeds 500
characters, the returned joke is its first 500 characters followed by the
marker "...", so it ends in "...". -/
theorem generate_joke_length_bound {Model Tok : Type}
    (st : ServiceState Model Tok) (req : GenerateJokeRequest)
    (f : GenParams → Except Str Str) (g : Str)
    (h : st.model_loaded = true) (hg : f (gen_params req) = .ok g) :
    ∃ resp : JokeResponse, (generate_joke st req f).2 = .ok resp ∧
      resp.joke.length ≤ 503 ∧
      (500 < (postProcess (prompt_for req.topic) g).length →
         resp.joke = (postProcess (prompt_for req.topic) g).take 500
             ++ "...".toList ∧
         "...".toList <:+ resp.joke) := by
  refine ⟨_, by rw [generate_joke_ok st req f g h hg], ?_, ?_⟩
  · show (clean_joke (postProcess (prompt_for req.topic) g)).length ≤ 503
    rcases (clean_joke_length (postProcess (prompt_for req.topic) g)).2
      with h1 | h1 <;> omega
  · intro h500
    show clean_joke (postProcess (prompt_for req.topic) g) =
        (postProcess (prompt_for req.topic) g).take 500 ++ "...".toList ∧
      "...".toList <:+ clean_joke (postProcess (prompt_for req.topic) g)
    rw [clean_joke_of_long _ h500]
    exact ⟨rfl, (postProcess (prompt_for req.topic) g).take 500, rfl⟩

/-- Witness for C5 at a concrete loaded state, request and model output. -/
theorem generate_joke_length_bound_witness :
    ∃ resp : JokeResponse,
      (generate_joke stLoaded reqCats
         (fun _ => .ok "A cat walked into a bar today.".toList)).2
        = .ok resp ∧
      resp.joke.length ≤ 503 ∧
      (500 < (postProcess (prompt_for reqCats.topic)
                "A cat walked into a bar today.".toList).length →
         resp.joke = (postProcess (prompt_for reqCats.topic)
               "A cat walked into a bar today.".toList).take 500
             ++ "...".toList ∧
         "...".toList <:+ resp.joke) :=
  generate_joke_length_bound stLoaded reqCats _ _ rfl rfl

/-- C6: whatever the decoded model output, if the post-processed text
(prompt removed, whitespace stripped) is shorter than 10 characters — the
empty string included — the returned joke is exactly the fixed fallback
string, independently of sampling randomness. -/
theorem generate_joke_fallback {Model Tok : Type}
    (st : ServiceState Model Tok) (req : GenerateJokeRequest)
    (f : GenParams → Except Str Str) (g : Str)
    (h : st.model_loaded = true) (hg : f (gen_params req) = .ok g)
    (hshort : (postProcess (prompt_for req.topic) g).length < 10) :
    ∃ resp : JokeResponse, (generate_joke st req f).2 = .ok resp ∧
      resp.joke = fallbackJoke := by
  refine ⟨_, by rw [generate_joke_ok st req f g h hg], ?_⟩
  show clean_joke (postProcess (prompt_for req.topic) g) = fallbackJoke
  exact clean_joke_of_degenerate _ hshort

/-- Witness for C6: the decoded output is the prompt plus a 3-character
tail, so the post-processed text is shorter than 10 characters. -/
theorem generate_joke_fallback_witness :
    ∃ resp : JokeResponse,
      (generate_joke stLoaded reqCats
         (fun _ => .ok "Here's a funny joke about cats:\nHa!".toList)).2
        = .ok resp ∧
      resp.joke = fallbackJoke :=
  generate_joke_fallback stLoaded reqCats _ _ rfl rfl (by decide)

/-- C7: on every successful `generate_joke` call, a non-empty topic is
echoed into the response and the constructed prompt is
"Here's a funny joke about {topic}:\n" (containing "about {topic}"), while
an empty topic yields the literal response topic "general" and the prompt
"Here's a funny joke:\n". -/
theorem generate_joke_topic_echo {Model Tok : Type}
    (st : ServiceState Model Tok) (req : GenerateJokeRequest)
    (f : GenParams → Except Str Str) (g : Str)
    (h : st.model_loaded = true) (hg : f (gen_params req) = .ok g) :
    ∃ resp : JokeResponse, (generate_joke st req f).2 = .ok resp ∧
      (req.topic ≠ [] →
         resp.topic = req.topic ∧
         prompt_for req.topic =
           "Here's a funny joke about ".toList ++ req.topic ++ ":\n".toList ∧
         ("about ".toList ++ req.topic) <:+: prompt_for req.topic) ∧
      (req.topic = [] →
         resp.topic = "general".toList ∧
         prompt_for req.topic = "Here's a funny joke:\n".toList) := by
  refine ⟨_, by rw [generate_joke_ok st req f g h hg], ?_, ?_⟩
  · intro htop
    refine ⟨?_, ?_, ?_⟩
    · show (if req.topic ≠ [] then req.topic else "general".toList) = req.topic
      rw [if_pos htop]
    · simp only [prompt_for]
      rw [if_pos htop]
    · simp only [prompt_for]
      rw [if_pos htop]
      refine ⟨"Here's a funny joke ".toList, ":\n".toList, ?_⟩
      rw [show "Here's a funny joke about ".toList =
            "Here's a funny joke ".toList ++ "about ".toList from by decide]
      simp [List.append_assoc]
  · intro htop
    constructor
    · show (if req.topic ≠ [] then req.topic else "general".toList)
          = "general".toList
      rw [if_neg (not_not_intro htop)]
    · simp only [prompt_for]
      rw [if_neg (not_not_intro htop)]

/-- Witness for C7 with the topic "cats". -/
theorem generate_joke_topic_echo_witness :
    ∃ resp : JokeResponse,
      (generate_joke stLoaded reqCats
         (fun _ => .ok "A cat walked into a bar today.".toList)).2
        = .ok resp ∧
      (reqCats.topic ≠ [] →
         resp.topic = reqCats.topic ∧
         prompt_for reqCats.topic =
           "Here's a funny joke about ".toList ++ reqCats.topic
             ++ ":\n".toList ∧
         ("about ".toList ++ reqCats.topic) <:+: prompt_for reqCats.topic) ∧
      (reqCats.topic = [] →
         resp.topic = "general".toList ∧
         prompt_for reqCats.topic = "Here's a funny joke:\n".toList) :=
  generate_joke_topic_echo stLoaded reqCats _ _ rfl rfl

/-- C10: on every successful `generate_joke` call, whatever the decoded
model output, the returned joke is non-empty, has length at least 10, and
its length is either at most 500 or exactly 503 — never 501, 502 or
between 1 and 9 (the fallback substitution runs after truncation and the
final emptiness guard never fires). -/
theorem generate_joke_length_profile {Model Tok : Type}
    (st : ServiceState Model Tok) (req : GenerateJokeRequest)
    (f : GenParams → Except Str Str) (g : Str)
    (h : st.model_loaded = true) (hg : f (gen_params req) = .ok g) :
    ∃ resp : JokeResponse, (generate_joke st req f).2 = .ok resp ∧
      resp.joke ≠ [] ∧ 10 ≤ resp.joke.length ∧
      (resp.joke.length ≤ 500 ∨ resp.joke.length = 503) := by
  refine ⟨_, by rw [generate_joke_ok st req f g h hg], ?_, ?_, ?_⟩
  · exact clean_joke_ne_nil _
  · exact (clean_joke_length _).1
  · exact (clean_joke_length _).2

/-- Witness for C10 at a concrete loaded state, request and output. -/
theorem generate_joke_length_profile_witness :
    ∃ resp : JokeResponse,
      (generate_joke stLoaded reqCats
         (fun _ => .ok "A cat walked into a bar today.".toList)).2
        = .ok resp ∧
      resp.joke ≠ [] ∧ 10 ≤ resp.joke.length ∧
      (resp.joke.length ≤ 500 ∨ resp.joke.length = 503) :=
  generate_joke_length_profile stLoaded reqCats _ _ rfl rfl
